import Mathlib

/-!
Verification of the phone-number OTP lifecycle of the Zomato-Clone backend
(`authController`): the in-memory per-phone rate limiter, phone-number
validation, the OTP send/verify/resend HTTP handlers, and the user-model OTP
operations they call.

Conventions of the embedding:
* JavaScript timestamps (`Date.now()`, `Date` values) are `Nat` milliseconds.
* The mongoose `User` document is a `UserState` record; "persisting" a user is
  returning the updated record from the modelled handler.
* Fallible JavaScript code (`throw`) is modelled with `Except String`.
* The rate limiter's `Map` is modelled per key: `checkLimit` receives the entry
  stored for the phone number (or `none`) and returns the updated entry, which
  is exactly how the source reads and writes `this.attempts` for a single key.
-/

/-- Ceiling division on naturals, matching `Math.ceil(a / b)` for the
non-negative quantities the source divides. -/
def cdiv (a b : Nat) : Nat := (a + b - 1) / b

/-- `leadsWith needle hay` is true when `needle` is a prefix of `hay`
(character lists). -/
def leadsWith : List Char → List Char → Bool
  | [], _ => true
  | _ :: _, [] => false
  | a :: as, b :: bs => a = b && leadsWith as bs

/-- `containsSub hay needle` models JavaScript `hay.includes(needle)`:
`needle` occurs contiguously somewhere in `hay`. -/
def containsSub (hay needle : String) : Bool :=
  go needle.data hay.data
where
  go (needle : List Char) : List Char → Bool
    | [] => needle.isEmpty
    | c :: cs => leadsWith needle (c :: cs) || go needle cs

/-! ## Rate limiter (`rateLimiter` in the source)

`rateLimiter.checkLimit(phoneNumber)` keeps, per phone number, an entry
`{count, timestamp, blocked}` and a 1-hour window (`cleanupInterval`). -/

/-- The source's `cleanupInterval`: one hour in milliseconds. -/
def windowMs : Nat := 60 * 60 * 1000

/-- One entry of `rateLimiter.attempts` (per phone number). -/
structure RLEntry where
  count : Nat
  timestamp : Nat
  blocked : Bool
deriving Repr, DecidableEq

/-- Result object of `rateLimiter.checkLimit`. -/
structure RLResult where
  allowed : Bool
  message : Option String
  retryAfter : Option Nat
deriving Repr, DecidableEq

/-- `rateLimiter.checkLimit`, acting on the entry stored for one phone number
(`none` when the map has no entry for the key). Returns the result object and
the entry as stored after the call. -/
def checkLimit (attempt : Option RLEntry) (now : Nat) : RLResult × Option RLEntry :=
  match attempt with
  | none => (⟨true, none, none⟩, some ⟨1, now, false⟩)
  | some a =>
    if windowMs < now - a.timestamp then
      (⟨true, none, none⟩, some ⟨1, now, false⟩)
    else if a.blocked then
      (⟨false,
        some ("Too many attempts. Please try again after "
          ++ toString (cdiv (cdiv (a.timestamp + windowMs - now) 1000) 60) ++ " minutes"),
        some (a.timestamp + windowMs)⟩,
       some a)
    else
      if 10 < a.count + 1 then
        (⟨false, some ("Too many attempts. Please try again after 1 hour"), some (now + windowMs)⟩,
         some ⟨a.count + 1, a.timestamp, true⟩)
      else
        (⟨true, none, none⟩, some ⟨a.count + 1, a.timestamp, false⟩)

/-- Run a sequence of `checkLimit` calls (one per listed time) against the
entry for one phone number, collecting the results. -/
def runCalls : List Nat → Option RLEntry → List RLResult × Option RLEntry
  | [], st => ([], st)
  | t :: ts, st =>
    let p := checkLimit st t
    let q := runCalls ts p.2
    (p.1 :: q.1, q.2)

/-- The entry stored for a phone number after `n ≥ 1` in-window calls:
count caps at 11 and the entry blocks exactly when 11 calls were made. -/
def entryAt (n t0 : Nat) : RLEntry := ⟨min n 11, t0, decide (11 ≤ n)⟩

theorem entryAt_le (n t0 : Nat) (h : n ≤ 10) : entryAt n t0 = ⟨n, t0, false⟩ := by
  simp only [entryAt, RLEntry.mk.injEq]
  refine ⟨by omega, trivial, by simp; omega⟩

theorem entryAt_ge (n t0 : Nat) (h : 11 ≤ n) : entryAt n t0 = ⟨11, t0, true⟩ := by
  simp only [entryAt, RLEntry.mk.injEq]
  refine ⟨by omega, trivial, by simp [h]⟩

theorem checkLimit_step (n t0 t : Nat) (hn : 1 ≤ n) (ht : t - t0 ≤ windowMs) :
    (checkLimit (some (entryAt n t0)) t).1.allowed = decide (n < 10) ∧
    (checkLimit (some (entryAt n t0)) t).2 = some (entryAt (n + 1) t0) := by
  have hnr : ¬ (windowMs < t - t0) := by omega
  rcases Nat.lt_or_ge n 10 with h10 | h10
  · rw [entryAt_le n t0 (by omega), entryAt_le (n + 1) t0 (by omega)]
    have hc : ¬ (10 < n + 1) := by omega
    simp [checkLimit, hnr, hc, h10]
  · rcases Nat.lt_or_ge n 11 with h11 | h11
    · have hn10 : n = 10 := by omega
      subst hn10
      rw [entryAt_le 10 t0 (by omega), entryAt_ge 11 t0 (by omega)]
      simp [checkLimit, hnr]
    · rw [entryAt_ge n t0 h11, entryAt_ge (n + 1) t0 (by omega)]
      have hlt : ¬ (n < 10) := by omega
      simp [checkLimit, hnr, hlt]

theorem runCalls_entryAt (ts : List Nat) (n t0 : Nat) (hn : 1 ≤ n)
    (hts : ∀ t ∈ ts, t - t0 ≤ windowMs) :
    ((runCalls ts (some (entryAt n t0))).1.map RLResult.allowed
      = (List.range ts.length).map (fun i => decide (n + i < 10))) ∧
    ((runCalls ts (some (entryAt n t0))).2 = some (entryAt (n + ts.length) t0)) := by
  induction ts generalizing n with
  | nil => simp [runCalls]
  | cons t ts ih =>
    have ht : t - t0 ≤ windowMs := hts t (by simp)
    obtain ⟨h1, h2⟩ := checkLimit_step n t0 t hn ht
    obtain ⟨ih1, ih2⟩ := ih (n + 1) (by omega) (fun x hx => hts x (by simp [hx]))
    refine ⟨?_, ?_⟩
    · rw [List.length_cons, List.range_succ_eq_map]
      simp only [runCalls, List.map_cons, h2, ih1, List.map_map]
      refine congrArg₂ _ ?_ ?_
      · rw [h1]
        simp
      · refine List.map_congr_left fun a _ => ?_
        simp only [Function.comp_apply, decide_eq_decide]
        omega
    · simp only [runCalls, h2, ih2, List.length_cons]
      refine congrArg _ ?_
      refine congrArg₂ _ ?_ rfl
      omega

/-- **C1.** For every phone number, a sequence of `checkLimit` calls whose
entry stays within one rolling one-hour window (every call time `t` satisfies
`t - t0 ≤ windowMs`, where `t0` is the first call's time and hence the entry's
window start) is allowed for exactly the first 10 calls — the list of `allowed`
flags equals `true` at indices `0..9` and `false` from index 10 on — and once
more than one hour has elapsed since the entry's window-start timestamp, the
next call is allowed again with a reset entry (`count = 1`, `blocked = false`). -/
theorem checkLimit_first_ten_then_reset (t0 t2 : Nat) (ts : List Nat)
    (hts : ∀ t ∈ ts, t - t0 ≤ windowMs) (h2 : windowMs < t2 - t0) :
    ((runCalls (t0 :: ts) none).1.map RLResult.allowed
      = (List.range (ts.length + 1)).map (fun i => decide (i < 10))) ∧
    (checkLimit (runCalls (t0 :: ts) none).2 t2
      = (⟨true, none, none⟩, some ⟨1, t2, false⟩)) := by
  have h0 : checkLimit none t0 = (⟨true, none, none⟩, some ⟨1, t0, false⟩) := rfl
  have he : (⟨1, t0, false⟩ : RLEntry) = entryAt 1 t0 := by
    simp [entryAt]
  obtain ⟨r1, r2⟩ := runCalls_entryAt ts 1 t0 (Nat.le_refl 1) hts
  constructor
  · rw [List.range_succ_eq_map]
    simp only [runCalls, h0, he, r1, List.map_cons, List.map_map]
    refine congrArg₂ _ rfl ?_
    refine List.map_congr_left fun a _ => ?_
    simp only [Function.comp_apply, decide_eq_decide]
    omega
  · have hst : (runCalls (t0 :: ts) none).2 = some (entryAt (1 + ts.length) t0) := by
      simp only [runCalls, h0, he, r2]
    rw [hst]
    have htt : (entryAt (1 + ts.length) t0).timestamp = t0 := rfl
    simp only [checkLimit]
    rw [htt, if_pos h2]

/-- Witness for C1: 12 calls at time 0 give `allowed` flags
`[true × 10, false, false]`, and a call at `3600001` (one hour + 1 ms later)
resets the entry to `count = 1`, `blocked = false`. -/
theorem checkLimit_first_ten_then_reset_witness :
    ((runCalls (0 :: [0, 0, 0, 0, 0, 0, 0, 0, 0, 0, 0]) none).1.map RLResult.allowed
      = (List.range 12).map (fun i => decide (i < 10))) ∧
    (checkLimit (runCalls (0 :: [0, 0, 0, 0, 0, 0, 0, 0, 0, 0, 0]) none).2 3600001
      = (⟨true, none, none⟩, some ⟨1, 3600001, false⟩)) :=
  checkLimit_first_ten_then_reset 0 3600001 [0, 0, 0, 0, 0, 0, 0, 0, 0, 0, 0]
    (by decide) (by decide)

/-- The inductive invariant of a stored rate-limiter entry: an unblocked entry
has seen at most 10 calls and `count` never exceeds 11. -/
def entryInv (e : RLEntry) : Prop :=
  (e.blocked = false → e.count ≤ 10) ∧ e.count ≤ 11

instance (e : RLEntry) : Decidable (entryInv e) := by
  unfold entryInv
  infer_instance

/-- **C9.** The rate limiter's stored entry invariantly satisfies
`count ≤ 11`: the inductive invariant `entryInv` (unblocked entries have
`count ≤ 10`; `count ≤ 11` always) holds of every freshly created or reset
entry and is preserved by every `checkLimit` call; a blocked entry within its
window yields a not-allowed result without any change to the entry (in
particular without incrementing `count`); and both entry creation and window
reset store `count = 1`, `blocked = false`. -/
theorem rateLimiter_entry_invariant (e : RLEntry) (now t : Nat) :
    (∀ e2, entryInv e → (checkLimit (some e) now).2 = some e2 → entryInv e2 ∧ e2.count ≤ 11) ∧
    (e.blocked = true → now - e.timestamp ≤ windowMs →
      (checkLimit (some e) now).1.allowed = false ∧
      (checkLimit (some e) now).2 = some e) ∧
    ((checkLimit none t).1.allowed = true ∧ (checkLimit none t).2 = some ⟨1, t, false⟩ ∧
      entryInv ⟨1, t, false⟩) ∧
    (windowMs < now - e.timestamp →
      (checkLimit (some e) now).1.allowed = true ∧
      (checkLimit (some e) now).2 = some ⟨1, now, false⟩) := by
  refine ⟨?_, ?_, ⟨rfl, rfl, by constructor <;> simp⟩, ?_⟩
  · intro e2 hinv h2
    simp only [checkLimit] at h2
    by_cases hw : windowMs < now - e.timestamp
    · rw [if_pos hw] at h2
      injection h2 with h3
      rw [← h3]
      constructor
      · exact ⟨fun _ => by norm_num, by norm_num⟩
      · norm_num
    · rw [if_neg hw] at h2
      by_cases hb : e.blocked = true
      · rw [if_pos hb] at h2
        injection h2 with h3
        rw [← h3]
        exact ⟨hinv, hinv.2⟩
      · rw [if_neg hb] at h2
        have hb2 : e.blocked = false := by
          revert hb
          cases e.blocked <;> simp
        have h10 : e.count ≤ 10 := hinv.1 hb2
        by_cases hc : 10 < e.count + 1
        · rw [if_pos hc] at h2
          injection h2 with h3
          rw [← h3]
          refine ⟨⟨fun hfalse => by simp at hfalse, by simp; omega⟩, by simp; omega⟩
        · rw [if_neg hc] at h2
          injection h2 with h3
          rw [← h3]
          refine ⟨⟨fun _ => by simp; omega, by simp; omega⟩, by simp; omega⟩
  · intro hb hw
    have hw2 : ¬ (windowMs < now - e.timestamp) := by omega
    simp [checkLimit, hw2, hb]
  · intro hw
    simp [checkLimit, hw]

/-- Witness for C9 at a concrete blocked entry: within the window the call is
rejected and the entry (and so its count) is unchanged. -/
theorem rateLimiter_entry_invariant_witness :
    (checkLimit (some ⟨11, 0, true⟩) 5).1.allowed = false ∧
    (checkLimit (some ⟨11, 0, true⟩) 5).2 = some ⟨11, 0, true⟩ :=
  (rateLimiter_entry_invariant ⟨11, 0, true⟩ 5 7).2.1 rfl (by decide)

/-! ## Phone number validation (`validatePhoneNumber` in the source) -/

/-- The source's cleaning step `phoneNumber.replace(/(?!^\+)[^\d]/g, '')`:
every non-digit character is removed, except a plus sign standing at position
0, which is kept. -/
def cleanChars : List Char → List Char
  | [] => []
  | c :: rest =>
    if c = '+' then '+' :: rest.filter Char.isDigit
    else (c :: rest).filter Char.isDigit

/-- The regex character class `[1-9]` (a nonzero decimal digit). -/
def isNonZeroDigit (c : Char) : Bool := c.val ≥ 49 && c.val ≤ 57

/-- The regex fragment `[1-9]\d{1,14}` matched against a whole string. -/
def digitsBody : List Char → Bool
  | [] => false
  | c :: rest =>
    isNonZeroDigit c && rest.all Char.isDigit
      && decide (1 ≤ rest.length) && decide (rest.length ≤ 14)

/-- The source's regex `^\+?[1-9]\d{1,14}$`: with a leading plus the `\+?`
must consume it (a plus can never match `[1-9]`), without one the body starts
at the first character. -/
def intlMatch (cs : List Char) : Bool :=
  if cs.head? = some '+' then digitsBody cs.tail else digitsBody cs

/-- `validatePhoneNumber` from the source: clean, match the regex, then check
the cleaned string's character count (which counts a leading plus sign) is
between 8 and 15; a failure is the thrown error message, success returns the
cleaned number. -/
def validatePhoneNumber (phoneNumber : String) : Except String String :=
  let c := cleanChars phoneNumber.data
  if !(intlMatch c) then
    .error ("Invalid phone number format. Please use international format (e.g., +1234567890)")
  else if c.length < 8 then
    .error ("Phone number too short. Please include country code.")
  else if c.length > 15 then
    .error ("Phone number too long. Maximum 15 digits allowed.")
  else
    .ok (String.mk c)

/-- `validatePhoneNumber` accepts (returns rather than throws). -/
def phoneAccepted (s : String) : Bool := (validatePhoneNumber s).toOption.isSome

/-- The acceptance condition exactly as claim C4 states it: after cleaning,
the number consists of an optional leading plus sign followed by digits only,
and totals 8 to 15 digits. -/
def claimedAccepts (s : String) : Bool :=
  let c := cleanChars s.data
  let body := if c.head? = some '+' then c.tail else c
  body.all Char.isDigit && decide (8 ≤ body.length) && decide (body.length ≤ 15)

/-- The amended acceptance condition: after cleaning, an optional leading plus
sign followed by a nonzero digit and then digits only, at least 2 and at most
15 digits, and the cleaned string is 8 to 15 characters long with a leading
plus sign counting as a character (so 8-15 digits without a plus, 7-14 digits
with one). -/
def amendedBody (c : List Char) : Bool :=
  let body := if c.head? = some '+' then c.tail else c
  (match body with
   | [] => false
   | d :: rest => isNonZeroDigit d && rest.all Char.isDigit)
  && decide (2 ≤ body.length) && decide (body.length ≤ 15)
  && decide (8 ≤ c.length) && decide (c.length ≤ 15)

/-- The amended acceptance condition applied to a raw input string. -/
def amendedAccepts (s : String) : Bool := amendedBody (cleanChars s.data)

theorem phoneAccepted_eq (s : String) :
    phoneAccepted s = (intlMatch (cleanChars s.data)
      && decide (8 ≤ (cleanChars s.data).length)
      && decide ((cleanChars s.data).length ≤ 15)) := by
  unfold phoneAccepted validatePhoneNumber
  by_cases hI : intlMatch (cleanChars s.data) = true
  · by_cases h8 : (cleanChars s.data).length < 8
    · have h8b : ¬ (8 ≤ (cleanChars s.data).length) := by omega
      simp [hI, h8, h8b, Except.toOption]
    · by_cases h15 : 15 < (cleanChars s.data).length
      · have h15b : ¬ ((cleanChars s.data).length ≤ 15) := by omega
        simp [hI, h8, h15, h15b, Except.toOption]
      · have h8b : 8 ≤ (cleanChars s.data).length := by omega
        have h15b : (cleanChars s.data).length ≤ 15 := by omega
        simp [hI, h8, h15, h8b, h15b, Except.toOption]
  · have hI2 : intlMatch (cleanChars s.data) = false := by
      revert hI
      cases intlMatch (cleanChars s.data) <;> simp
    simp [hI2, Except.toOption]

theorem code_iff_amended (c : List Char) :
    (intlMatch c && decide (8 ≤ c.length) && decide (c.length ≤ 15)) = amendedBody c := by
  cases c with
  | nil => rfl
  | cons c0 rest =>
    by_cases hp : c0 = '+'
    · subst hp
      cases rest with
      | nil => rfl
      | cons d ds =>
        have hh : (('+' :: d :: ds).head? = some '+') := rfl
        simp only [intlMatch, amendedBody, if_pos hh, List.tail_cons, digitsBody,
          List.length_cons]
        cases hz : isNonZeroDigit d <;> cases ha : ds.all Char.isDigit <;>
          simp [hz, ha]
    · have hh : ¬ ((c0 :: rest).head? = some '+') := by
        simp [List.head?]
        exact hp
      simp only [intlMatch, amendedBody, if_neg hh, digitsBody, List.length_cons]
      cases hz : isNonZeroDigit c0 <;> cases ha : rest.all Char.isDigit <;>
        simp [hz, ha]

/-- **C4 counterexample.** The input `01234567` cleans to itself and is
digits-only with 8 digits, so the rule stated by the claim accepts it; but the
source's regex `^\+?[1-9]\d{1,14}$` requires a nonzero first digit, so
`validatePhoneNumber` rejects it with an invalid-format error. -/
theorem validatePhoneNumber_claim_cex :
    claimedAccepts ("01234567") = true ∧ phoneAccepted ("01234567") = false := by
  constructor
  · decide
  · decide

/-- **C4 (amended).** `validatePhoneNumber` accepts a phone number exactly
when, after cleaning (removing every non-digit character except a leading
plus sign), it consists of an optional leading plus sign followed by a nonzero
digit and further digits only, with 2 to 15 digits, and the cleaned string is
8 to 15 characters long counting the plus sign (so 8-15 digits without a plus,
7-14 digits with one); rejection is by throwing (modelled as `Except.error`)
and the validator mutates no state (it is a pure function of its input). -/
theorem validatePhoneNumber_accepts_iff (s : String) :
    phoneAccepted s = amendedAccepts s := by
  rw [phoneAccepted_eq]
  exact code_iff_amended (cleanChars s.data)

theorem isDigit_of_nonZero {c : Char} (h : isNonZeroDigit c = true) : c.isDigit = true := by
  have e48 : (UInt32.toBitVec 48).toNat = 48 := rfl
  have e49 : (UInt32.toBitVec 49).toNat = 49 := rfl
  have e57 : (UInt32.toBitVec 57).toNat = 57 := rfl
  simp only [isNonZeroDigit, Bool.and_eq_true, decide_eq_true_eq, ge_iff_le,
    UInt32.le_def, BitVec.le_def, e48, e49, e57] at h
  simp only [Char.isDigit, Bool.and_eq_true, decide_eq_true_eq, ge_iff_le,
    UInt32.le_def, BitVec.le_def, e48, e49, e57]
  omega

/-- A string that matches the source's regex is left unchanged by the cleaning
step: it is already an optional plus sign followed by digits. -/
theorem cleanChars_fixed (c : List Char) (h : intlMatch c = true) : cleanChars c = c := by
  cases c with
  | nil => rfl
  | cons c0 rest =>
    by_cases hp : c0 = '+'
    · subst hp
      have hd : digitsBody rest = true := by
        simpa [intlMatch] using h
      cases rest with
      | nil => simp [digitsBody] at hd
      | cons d ds =>
        simp only [digitsBody, Bool.and_eq_true] at hd
        have hall : ∀ x ∈ d :: ds, x.isDigit = true := by
          intro x hx
          rcases List.mem_cons.1 hx with h1 | h2
          · subst h1
            exact isDigit_of_nonZero hd.1.1.1
          · exact List.all_eq_true.1 hd.1.1.2 x h2
        simp [cleanChars, List.filter_eq_self.2 hall]
    · have hd : digitsBody (c0 :: rest) = true := by
        simpa [intlMatch, hp] using h
      simp only [digitsBody, Bool.and_eq_true] at hd
      have hall : ∀ x ∈ c0 :: rest, x.isDigit = true := by
        intro x hx
        rcases List.mem_cons.1 hx with h1 | h2
        · subst h1
          exact isDigit_of_nonZero hd.1.1.1
        · exact List.all_eq_true.1 hd.1.1.2 x h2
      simp only [cleanChars, if_neg hp]
      exact List.filter_eq_self.2 hall

/-- **C10.** `validatePhoneNumber` is idempotent on accepted inputs: whenever
it accepts `s` and returns the cleaned number `c`, validating `c` again also
succeeds and returns the same string `c`. -/
theorem validatePhoneNumber_idempotent (s c : String)
    (h : validatePhoneNumber s = .ok c) :
    validatePhoneNumber c = .ok c := by
  unfold validatePhoneNumber at h
  by_cases hI : intlMatch (cleanChars s.data) = true
  · by_cases h8 : (cleanChars s.data).length < 8
    · simp [hI, h8] at h
    · by_cases h15 : (cleanChars s.data).length > 15
      · simp [hI, h8, h15] at h
      · simp only [hI, Bool.not_true, Bool.false_eq_true, if_false, if_neg h8, if_neg h15] at h
        injection h with h2
        subst h2
        have hdata : (String.mk (cleanChars s.data)).data = cleanChars s.data := rfl
        have hfix : cleanChars (String.mk (cleanChars s.data)).data = cleanChars s.data := by
          rw [hdata]
          exact cleanChars_fixed _ hI
        unfold validatePhoneNumber
        rw [hfix]
        simp [hI, h8, h15]
  · simp [hI] at h

/-- Witness for C10 at a concrete accepted input: `+1 234 5678` is accepted,
cleaning to `+12345678`, and re-validating `+12345678` returns it unchanged. -/
theorem validatePhoneNumber_idempotent_witness :
    validatePhoneNumber ("+12345678") = .ok ("+12345678") :=
  validatePhoneNumber_idempotent ("+1 234 5678") ("+12345678") (by rfl)

/-! ## User OTP state (the `User` model's OTP fields and methods)

The mongoose `User` schema and its instance methods `generateOTP`, `verifyOTP`
and `canRequestOTP` live in `models/User.js`, which is not among the sources;
they are modelled here from the spec (sections 3 and 4.2). The HTTP handlers
below are translated from the source. -/

/-- The `phoneOTP` sub-document of a user (spec: OtpRecord). -/
structure PhoneOTP where
  code : Option String
  expiresAt : Option Nat
  attempts : Nat
deriving Repr, DecidableEq

/-- The `otpRequestCount` sub-document of a user (spec: OtpRequestQuota).
`count` is an `Int` because the handlers decrement it with plain JavaScript
subtraction. -/
structure OtpRequestCount where
  count : Int
  lastRequest : Nat
deriving Repr, DecidableEq

/-- The slice of a `User` document that the OTP lifecycle reads and writes. -/
structure UserState where
  phoneOTP : PhoneOTP
  otpRequestCount : OtpRequestCount
  isActive : Bool
deriving Repr, DecidableEq

/-- 24 hours in milliseconds. -/
def dayMs : Nat := 24 * 60 * 60 * 1000

/-- 60 seconds in milliseconds: the OTP validity window. -/
def otpTtlMs : Nat := 60 * 1000

/-- Modelled from the spec: `canRequestOtp(user)` of the missing
`models/User.js` — allowed unless `otpRequestCount.count >= 5` and less than
24 hours have elapsed since `otpRequestCount.lastRequest`. -/
def UserState.canRequestOTP (u : UserState) (now : Nat) : Bool :=
  !(decide (5 ≤ u.otpRequestCount.count)
      && decide (now - u.otpRequestCount.lastRequest < dayMs))

/-- Modelled from the spec: `generateOtp(user)` of the missing
`models/User.js` — store the drawn code, set `expiresAt = now + 60s`, reset
`attempts = 0`; for the quota, set `count = 1` when the 24-hour window since
`lastRequest` has elapsed, else increment `count`, refreshing `lastRequest`
either way. The randomly drawn 6-digit code is a parameter. -/
def UserState.generateOTP (u : UserState) (now : Nat) (code : String) : UserState :=
  { u with
    phoneOTP := { code := some code, expiresAt := some (now + otpTtlMs), attempts := 0 },
    otpRequestCount :=
      if dayMs ≤ now - u.otpRequestCount.lastRequest then
        { count := 1, lastRequest := now }
      else
        { count := u.otpRequestCount.count + 1, lastRequest := now } }

/-- Result object of the user model's `verifyOTP`. -/
structure VerifyResult where
  isValid : Bool
  message : String
deriving Repr, DecidableEq

/-- Modelled from the spec: `verifyOtp(user, submittedCode)` of the missing
`models/User.js` — fails closed when no code is present; fails closed when
`expiresAt` has passed, without touching `attempts`; fails closed when
`attempts >= 3` (lockout), independent of whether the submitted code matches;
otherwise increments `attempts`, then compares by exact string equality,
clearing `code` and `expiresAt` on a match so the code cannot be replayed. -/
def UserState.verifyOTP (u : UserState) (submitted : String) (now : Nat) :
    VerifyResult × UserState :=
  match u.phoneOTP.code with
  | none => (⟨false, "No OTP was requested"⟩, u)
  | some c =>
    if (match u.phoneOTP.expiresAt with
        | some e => decide (e ≤ now)
        | none => false) then
      (⟨false, "OTP has expired"⟩, u)
    else if 3 ≤ u.phoneOTP.attempts then
      (⟨false, "Too many attempts. Please request a new OTP"⟩, u)
    else
      if submitted = c then
        (⟨true, "OTP verified successfully"⟩,
         { u with phoneOTP := { u.phoneOTP with code := none, expiresAt := none, attempts := u.phoneOTP.attempts + 1 } })
      else
        (⟨false, "Incorrect OTP"⟩,
         { u with phoneOTP := { u.phoneOTP with attempts := u.phoneOTP.attempts + 1 } })

/-- **C2.** Once 3 verification attempts have been made against the current
OTP code (`attempts >= 3`), every further `verifyOTP` call — including a 4th
submission of the correct code — returns `isValid = false` and leaves the user
state (hence the lockout) unchanged; only generating a new OTP resets
`attempts` to 0 with a fresh code, ending the lockout for the new code. -/
theorem verifyOTP_lockout (u : UserState) (s c2 : String) (now now2 : Nat)
    (h : 3 ≤ u.phoneOTP.attempts) :
    ((u.verifyOTP s now).1.isValid = false) ∧
    ((u.verifyOTP s now).2 = u) ∧
    ((u.generateOTP now2 c2).phoneOTP.attempts = 0) ∧
    ((u.generateOTP now2 c2).phoneOTP.code = some c2) := by
  refine ⟨?_, ?_, rfl, rfl⟩ <;>
    · simp only [UserState.verifyOTP]
      split
      all_goals try rfl
      all_goals split
      all_goals try rfl

/-- Witness for C2: a user locked out after 3 attempts rejects even the
correct code `123456` while it is present and unexpired, and a regenerated
OTP has `attempts` reset to 0 and the fresh code stored. -/
theorem verifyOTP_lockout_witness :
    ((UserState.verifyOTP ⟨⟨some ("123456"), some 60000, 3⟩, ⟨1, 0⟩, true⟩ ("123456") 1000).1.isValid = false) ∧
    ((UserState.verifyOTP ⟨⟨some ("123456"), some 60000, 3⟩, ⟨1, 0⟩, true⟩ ("123456") 1000).2
      = ⟨⟨some ("123456"), some 60000, 3⟩, ⟨1, 0⟩, true⟩) ∧
    ((UserState.generateOTP ⟨⟨some ("123456"), some 60000, 3⟩, ⟨1, 0⟩, true⟩ 2000 ("654321")).phoneOTP.attempts = 0) ∧
    ((UserState.generateOTP ⟨⟨some ("123456"), some 60000, 3⟩, ⟨1, 0⟩, true⟩ 2000 ("654321")).phoneOTP.code
      = some ("654321")) :=
  verifyOTP_lockout ⟨⟨some ("123456"), some 60000, 3⟩, ⟨1, 0⟩, true⟩ ("123456") ("654321")
    1000 2000 (by decide)

/-! ## SMS delivery (`sendSMS` in the source) -/

/-- Availability and outcome of the two SMS providers for one send:
`none` = client not configured; `some none` = configured and the send
succeeds; `some (some e)` = configured and the send fails with error text
`e`. -/
structure SmsWorld where
  messageBird : Option (Option String)
  twilio : Option (Option String)
deriving Repr, DecidableEq

/-- The provider error list the source accumulates (MessageBird first, then
Twilio), each entry prefixed with the provider name as in the source. -/
def smsErrorList (w : SmsWorld) : List String :=
  (match w.messageBird with
   | some (some e) => ["MessageBird: " ++ e]
   | _ => []) ++
  (match w.twilio with
   | some (some e) => ["Twilio: " ++ e]
   | _ => [])

/-- JavaScript array join with a comma-space separator. -/
def joinComma : List String → String
  | [] => ""
  | [s] => s
  | s :: rest => s ++ ", " ++ joinComma rest

/-- `sendSMS` from the source: validate the number; with no client configured
succeed silently in development mode and fail otherwise; try MessageBird, then
Twilio, succeeding on the first provider that succeeds; when every configured
provider fails, throw the aggregated error text. The function's catch wraps
any error whose message contains the substring `phone number` as a validation
failure. The source also receives the SMS text; it cannot influence the
outcome, which is fixed by the provider world `w`, so it is not a parameter
here. -/
def sendSMS (w : SmsWorld) (env : String) (phoneNumber : String) :
    Except String Unit :=
  let inner : Except String Unit :=
    match validatePhoneNumber phoneNumber with
    | .error e => .error e
    | .ok _ =>
      if w.messageBird.isNone && w.twilio.isNone then
        if env = "development" then .ok ()
        else .error ("No SMS service configured. Please configure MessageBird or Twilio.")
      else
        match w.messageBird with
        | some none => .ok ()
        | _ =>
          match w.twilio with
          | some none => .ok ()
          | _ => .error ("Failed to send SMS: " ++ joinComma (smsErrorList w))
  match inner with
  | .ok _ => .ok ()
  | .error msg =>
    if containsSub msg ("phone number") then
      .error ("Phone number validation failed: " ++ msg)
    else
      .error msg

/-! ## The OTP HTTP handlers (`sendOTP`, `verifyOTP`, `resendOTP`) -/

/-- Response body and status of the OTP send/resend handlers. Fields the
source leaves `undefined` are `none` and absent from the JSON body. -/
structure SendResponse where
  status : Nat
  success : Bool
  msg : String
  expiresIn : Option Nat := none
  remainingAttempts : Option Int := none
  retryAfter : Option Nat := none
  nextAllowedDate : Option Nat := none
  otp : Option String := none
deriving Repr, DecidableEq

/-- Everything one send/resend handler run produces: the HTTP response, the
user document as persisted at the end of the run (`none` when no user was
found), and the rate-limiter entry as stored for the phone afterwards. -/
structure SendOutcome where
  response : SendResponse
  user : Option UserState
  rl : Option RLEntry
deriving Repr, DecidableEq

/-- Reverting a failed delivery, as both handlers do in their SMS catch:
clear `phoneOTP.code` and `phoneOTP.expiresAt` and decrement the daily quota
count by one. -/
def revertOTP (u : UserState) : UserState :=
  { u with phoneOTP := { u.phoneOTP with code := none, expiresAt := none },
           otpRequestCount := { u.otpRequestCount with count := u.otpRequestCount.count - 1 } }

/-- The `sendOTP` handler (`POST /otp/send`) from the source. Parameters
stand for the request and its environment: `body` is the request's
`phoneNumber` field (`none` for absent or empty, i.e. falsy), `rl` the
rate-limiter entry stored for that phone, `findUser` the user the database
lookup returns, `env` is `process.env.NODE_ENV`, `w` the SMS-provider world,
`otp` the randomly drawn 6-digit code, and `now` the clock. -/
def sendOTP (body : Option String) (rl : Option RLEntry) (findUser : Option UserState)
    (env : String) (w : SmsWorld) (otp : String) (now : Nat) : SendOutcome :=
  match body with
  | none => ⟨{ status := 400, success := false, msg := "Phone number is required" }, findUser, rl⟩
  | some phoneNumber =>
    let res := checkLimit rl now
    if !(res.1.allowed) then
      ⟨{ status := 429, success := false, msg := res.1.message.getD "",
         retryAfter := res.1.retryAfter }, findUser, res.2⟩
    else
      match findUser with
      | none =>
        ⟨{ status := 404, success := false, msg := "No user found with this phone number" },
         none, res.2⟩
      | some user =>
        if !(user.isActive) then
          ⟨{ status := 401, success := false,
             msg := "Account is deactivated. Please contact support." }, some user, res.2⟩
        else if !(user.canRequestOTP now) then
          ⟨{ status := 429, success := false,
             msg := "Daily OTP limit exceeded. Please try again after "
               ++ toString (24 - cdiv (now - user.otpRequestCount.lastRequest) 3600000)
               ++ " hours.",
             nextAllowedDate := some (user.otpRequestCount.lastRequest + dayMs) },
           some user, res.2⟩
        else
          let u2 := user.generateOTP now otp
          let success : SendOutcome :=
            ⟨{ status := 200, success := true, msg := "OTP sent successfully",
               expiresIn := some 60,
               remainingAttempts := some (5 - u2.otpRequestCount.count),
               retryAfter := u2.phoneOTP.expiresAt,
               otp := if env = "development" then some otp else none }, some u2, res.2⟩
          match sendSMS w env phoneNumber with
          | .ok _ => success
          | .error smsMsg =>
            if env = "development" then success
            else
              if containsSub ("Failed to send OTP: " ++ smsMsg) ("validation failed") then
                ⟨{ status := 400, success := false, msg := "Failed to send OTP: " ++ smsMsg },
                 some (revertOTP u2), res.2⟩
              else
                ⟨{ status := 500, success := false, msg := "Failed to send OTP: " ++ smsMsg },
                 some (revertOTP u2), res.2⟩

/-- The guard `user.phoneOTP.expiresAt && user.phoneOTP.expiresAt > Date.now()`
of the resend handler: a prior OTP exists and has not yet expired. -/
def otpStillValid (u : UserState) (now : Nat) : Bool :=
  match u.phoneOTP.expiresAt with
  | some e => decide (now < e)
  | none => false

/-- The `resendOTP` handler (`POST /otp/resend`) from the source. Unlike
`sendOTP` it has no missing-phone-number check and no `isActive` check; it
additionally rejects with 429 while the prior OTP is unexpired. On SMS
failure outside development it reverts the OTP and quota charge and rethrows,
which this handler's catch always answers with HTTP 500 (with JavaScript
`||` falling back to a default message on an empty one). -/
def resendOTP (phoneNumber : String) (rl : Option RLEntry) (findUser : Option UserState)
    (env : String) (w : SmsWorld) (otp : String) (now : Nat) : SendOutcome :=
  let res := checkLimit rl now
  if !(res.1.allowed) then
    ⟨{ status := 429, success := false, msg := res.1.message.getD "",
       retryAfter := res.1.retryAfter }, findUser, res.2⟩
  else
    match findUser with
    | none =>
      ⟨{ status := 404, success := false, msg := "No user found with this phone number" },
       none, res.2⟩
    | some user =>
      if otpStillValid user now then
        ⟨{ status := 429, success := false,
           msg := "Please wait " ++ toString (cdiv (user.phoneOTP.expiresAt.getD 0 - now) 1000)
             ++ " seconds before requesting a new OTP",
           retryAfter := user.phoneOTP.expiresAt }, some user, res.2⟩
      else if !(user.canRequestOTP now) then
        ⟨{ status := 429, success := false,
           msg := "Daily OTP limit exceeded. Please try again after "
             ++ toString (24 - cdiv (now - user.otpRequestCount.lastRequest) 3600000)
             ++ " hours.",
           nextAllowedDate := some (user.otpRequestCount.lastRequest + dayMs) },
         some user, res.2⟩
      else
        let u2 := user.generateOTP now otp
        let success : SendOutcome :=
          ⟨{ status := 200, success := true, msg := "New OTP sent successfully",
             expiresIn := some 60,
             remainingAttempts := some (5 - u2.otpRequestCount.count),
             retryAfter := u2.phoneOTP.expiresAt,
             otp := if env = "development" then some otp else none }, some u2, res.2⟩
        match sendSMS w env phoneNumber with
        | .ok _ => success
        | .error smsMsg =>
          if env = "development" then success
          else
            ⟨{ status := 500, success := false,
               msg := if smsMsg = "" then "Error resending OTP" else smsMsg },
             some (revertOTP u2), res.2⟩

/-- Response of the `verifyOTP` handler. The success body's token and user
payload are summarized by `isPhoneVerified`. -/
structure VerifyResponse where
  status : Nat
  success : Bool
  msg : String
  remainingAttempts : Option Int := none
  canRequestNew : Option Bool := none
  retryAfter : Option Nat := none
  isPhoneVerified : Option Bool := none
deriving Repr, DecidableEq

/-- The verify handler's regex `^\d{6}$`. -/
def isSixDigits (s : String) : Bool :=
  decide (s.data.length = 6) && s.data.all Char.isDigit

/-- 15 minutes in milliseconds: the cooldown the verify handler reports when
no attempts remain. -/
def fifteenMinMs : Nat := 15 * 60 * 1000

/-- The `verifyOTP` handler (`POST /otp/verify`) from the source: reject a
missing or empty (falsy) phone number or OTP field with 400; reject an OTP not
matching `^\d{6}$` with 400; 404 for an unknown user; 401 for a deactivated
account; otherwise delegate to the user model's `verifyOTP`, answering 400
with remaining attempts, `canRequestNew` and a 15-minute `retryAfter` when no
attempts remain, or 200 on success. Returns the response together with the
user state as persisted after the run (unchanged whenever the handler returns
before reaching the user model). -/
def verifyOTP (phoneNumber otpField : Option String) (findUser : Option UserState)
    (now : Nat) : VerifyResponse × Option UserState :=
  match phoneNumber, otpField with
  | some _, some o =>
    if !(isSixDigits o) then
      ({ status := 400, success := false, msg := "Invalid OTP format. Must be 6 digits." },
       findUser)
    else
      match findUser with
      | none =>
        ({ status := 404, success := false, msg := "No user found with this phone number" }, none)
      | some user =>
        if !(user.isActive) then
          ({ status := 401, success := false,
             msg := "Account is deactivated. Please contact support." }, some user)
        else
          let vr := user.verifyOTP o now
          if !(vr.1.isValid) then
            ({ status := 400, success := false, msg := vr.1.message,
               remainingAttempts := some (3 - (vr.2.phoneOTP.attempts : Int)),
               canRequestNew := some (vr.2.canRequestOTP now),
               retryAfter :=
                 if (3 - (vr.2.phoneOTP.attempts : Int)) = 0 then some (now + fifteenMinMs)
                 else none },
             some vr.2)
          else
            ({ status := 200, success := true, msg := vr.1.message,
               isPhoneVerified := some true }, some vr.2)
  | _, _ =>
    ({ status := 400, success := false, msg := "Phone number and OTP are required" }, findUser)

/-- The format precondition claim C5 speaks about: the request's `otp` field
matches `^\d{6}$` (an absent or empty field does not match). -/
def otpFieldMatches : Option String → Bool
  | some s => isSixDigits s
  | none => false

/-- **C5.** Every `POST /otp/verify` request whose `otp` field does not match
`^\d{6}$` is answered with HTTP 400 and `success = false` before any
mutation: the user state the handler returns is exactly the looked-up state,
so no OTP field changes and no verification attempt is counted. -/
theorem verifyOTP_malformed_rejected (p o : Option String) (fu : Option UserState) (now : Nat)
    (h : otpFieldMatches o = false) :
    ((verifyOTP p o fu now).1.status = 400) ∧
    ((verifyOTP p o fu now).1.success = false) ∧
    ((verifyOTP p o fu now).2 = fu) := by
  rcases p with _ | pv
  · rcases o with _ | ov <;> exact ⟨rfl, rfl, rfl⟩
  · rcases o with _ | ov
    · exact ⟨rfl, rfl, rfl⟩
    · have hs : isSixDigits ov = false := by simpa [otpFieldMatches] using h
      simp [verifyOTP, hs]

/-- Witness for C5: a 5-digit OTP field is rejected with 400 and the (here
absent) user is untouched. -/
theorem verifyOTP_malformed_rejected_witness :
    ((verifyOTP (some ("+12345678")) (some ("12345")) none 0).1.status = 400) ∧
    ((verifyOTP (some ("+12345678")) (some ("12345")) none 0).1.success = false) ∧
    ((verifyOTP (some ("+12345678")) (some ("12345")) none 0).2 = none) :=
  verifyOTP_malformed_rejected (some ("+12345678")) (some ("12345")) none 0 (by decide)

/-- **C6 (amended).** For every `POST /otp/resend` request that passes the
per-phone rate limiter, for a user whose prior OTP has not yet expired, the
handler responds HTTP 429 with `retryAfter` equal to the existing
`expiresAt`, and the user is returned unchanged: no new OTP is generated and
no daily-quota count is charged. (When the rate limiter itself rejects the
request, the response is 429 with the rate limiter's own `retryAfter`, not
`expiresAt` — see the counterexample.) -/
theorem resendOTP_unexpired_429 (phone : String) (rl : Option RLEntry) (u : UserState)
    (env : String) (w : SmsWorld) (otp : String) (now e : Nat)
    (hallow : (checkLimit rl now).1.allowed = true)
    (hexp : u.phoneOTP.expiresAt = some e) (hlt : now < e) :
    ((resendOTP phone rl (some u) env w otp now).response.status = 429) ∧
    ((resendOTP phone rl (some u) env w otp now).response.success = false) ∧
    ((resendOTP phone rl (some u) env w otp now).response.retryAfter = some e) ∧
    ((resendOTP phone rl (some u) env w otp now).user = some u) := by
  have hv : otpStillValid u now = true := by
    simp [otpStillValid, hexp, hlt]
  simp [resendOTP, hallow, hv, hexp]

/-- Witness for C6's amended theorem at concrete inputs. -/
theorem resendOTP_unexpired_429_witness :
    ((resendOTP ("+12345678") none
        (some (⟨⟨some ("111111"), some 6000, 0⟩, ⟨1, 0⟩, true⟩ : UserState))
        "production" ⟨none, none⟩ ("123456") 1000).response.status = 429) ∧
    ((resendOTP ("+12345678") none
        (some (⟨⟨some ("111111"), some 6000, 0⟩, ⟨1, 0⟩, true⟩ : UserState))
        "production" ⟨none, none⟩ ("123456") 1000).response.success = false) ∧
    ((resendOTP ("+12345678") none
        (some (⟨⟨some ("111111"), some 6000, 0⟩, ⟨1, 0⟩, true⟩ : UserState))
        "production" ⟨none, none⟩ ("123456") 1000).response.retryAfter = some 6000) ∧
    ((resendOTP ("+12345678") none
        (some (⟨⟨some ("111111"), some 6000, 0⟩, ⟨1, 0⟩, true⟩ : UserState))
        "production" ⟨none, none⟩ ("123456") 1000).user
      = some (⟨⟨some ("111111"), some 6000, 0⟩, ⟨1, 0⟩, true⟩ : UserState)) :=
  resendOTP_unexpired_429 ("+12345678") none
    (⟨⟨some ("111111"), some 6000, 0⟩, ⟨1, 0⟩, true⟩ : UserState)
    "production" ⟨none, none⟩ ("123456") 1000 6000 (by decide) (by decide) (by decide)

/-- **C6 counterexample.** With the phone's rate-limiter entry already
blocked within its window, a resend request for a user whose prior OTP is
still unexpired (`expiresAt = 6000`, `now = 1000`) is answered by the rate
limiter: HTTP 429 but with `retryAfter = 3600000` (the entry's window start
plus one hour), not the user's `expiresAt`, refuting the claim as universally
stated. -/
theorem resendOTP_unexpired_claim_cex :
    ((resendOTP ("+12345678") (some ⟨11, 0, true⟩)
        (some (⟨⟨some ("111111"), some 6000, 0⟩, ⟨1, 0⟩, true⟩ : UserState))
        "production" ⟨none, none⟩ ("123456") 1000).response.status = 429) ∧
    ((resendOTP ("+12345678") (some ⟨11, 0, true⟩)
        (some (⟨⟨some ("111111"), some 6000, 0⟩, ⟨1, 0⟩, true⟩ : UserState))
        "production" ⟨none, none⟩ ("123456") 1000).response.retryAfter = some 3600000) ∧
    ((⟨⟨some ("111111"), some 6000, 0⟩, ⟨1, 0⟩, true⟩ : UserState).phoneOTP.expiresAt
      = some 6000) ∧
    ((resendOTP ("+12345678") (some ⟨11, 0, true⟩)
        (some (⟨⟨some ("111111"), some 6000, 0⟩, ⟨1, 0⟩, true⟩ : UserState))
        "production" ⟨none, none⟩ ("123456") 1000).response.retryAfter ≠ some 6000) := by
  refine ⟨by decide, by decide, rfl, by decide⟩

/-- **C7 (amended).** `POST /otp/resend` does not follow send's contract for
deactivated accounts: the resend handler never reads `isActive`, so its
response is identical for an active and a deactivated account and no 401 is
ever produced for deactivation — whereas `sendOTP` answers 401 for a
deactivated account whenever the rate limiter lets the request through. -/
theorem resendOTP_ignores_isActive (phone : String) (rl : Option RLEntry) (u : UserState)
    (b : Bool) (env : String) (w : SmsWorld) (otp : String) (now : Nat) :
    ((resendOTP phone rl (some { u with isActive := b }) env w otp now).response
      = (resendOTP phone rl (some u) env w otp now).response) ∧
    ((checkLimit rl now).1.allowed = true →
      (sendOTP (some phone) rl (some { u with isActive := false }) env w otp now).response.status
        = 401) := by
  constructor
  · cases u
    simp only [resendOTP, otpStillValid, UserState.canRequestOTP, UserState.generateOTP,
      revertOTP]
    repeat' split
    all_goals rfl
  · intro hallow
    simp [sendOTP, hallow]

/-- Witness for C7's amended theorem: with a fresh rate-limiter entry the
deactivated variant of a user draws the same resend response as the active
one, while `sendOTP` answers 401 for the deactivated variant. -/
theorem resendOTP_ignores_isActive_witness :
    ((resendOTP ("+12345678") none
        (some { (⟨⟨none, none, 0⟩, ⟨0, 0⟩, true⟩ : UserState) with isActive := true })
        "development" ⟨none, none⟩ ("123456") 0).response
      = (resendOTP ("+12345678") none
          (some (⟨⟨none, none, 0⟩, ⟨0, 0⟩, true⟩ : UserState))
          "development" ⟨none, none⟩ ("123456") 0).response) ∧
    ((sendOTP (some ("+12345678")) none
        (some { (⟨⟨none, none, 0⟩, ⟨0, 0⟩, true⟩ : UserState) with isActive := false })
        "development" ⟨none, none⟩ ("123456") 0).response.status = 401) :=
  ⟨(resendOTP_ignores_isActive ("+12345678") none
      (⟨⟨none, none, 0⟩, ⟨0, 0⟩, true⟩ : UserState) true "development" ⟨none, none⟩
      ("123456") 0).1,
   (resendOTP_ignores_isActive ("+12345678") none
      (⟨⟨none, none, 0⟩, ⟨0, 0⟩, true⟩ : UserState) true "development" ⟨none, none⟩
      ("123456") 0).2 (by decide)⟩

/-- **C7 counterexample.** A deactivated user (`isActive = false`) with no
unexpired OTP and quota available receives HTTP 200 from the resend handler
in development mode — not the 401 the claim requires for deactivated
accounts: `resendOTP` has no `isActive` check at all. -/
theorem resendOTP_deactivated_cex :
    ((⟨⟨none, none, 0⟩, ⟨0, 0⟩, false⟩ : UserState).isActive = false) ∧
    ((resendOTP ("+12345678") none
        (some (⟨⟨none, none, 0⟩, ⟨0, 0⟩, false⟩ : UserState))
        "development" ⟨none, none⟩ ("123456") 0).response.status = 200) := by
  refine ⟨rfl, by decide⟩

theorem generateOTP_quota (u : UserState) (now : Nat) (c : String) :
    (u.generateOTP now c).otpRequestCount
      = (if dayMs ≤ now - u.otpRequestCount.lastRequest then ⟨1, now⟩
         else ⟨u.otpRequestCount.count + 1, now⟩) := rfl

theorem generateOTP_expiresAt (u : UserState) (now : Nat) (c : String) :
    (u.generateOTP now c).phoneOTP.expiresAt = some (now + otpTtlMs) := rfl

/-- **C8.** The `otp` field is present in a send/resend response exactly when
the response is the success response (status 200) and `NODE_ENV` is
`development`; and outside development mode the response body never depends
on the drawn code — two handler runs differing only in the randomly drawn
code produce identical response bodies. -/
theorem otp_field_development_only (body : Option String) (phone : String)
    (rl : Option RLEntry) (fu : Option UserState) (env : String) (w : SmsWorld)
    (o1 o2 : String) (now : Nat) :
    ((sendOTP body rl fu env w o1 now).response.otp.isSome
      = ((sendOTP body rl fu env w o1 now).response.status == 200
          && env == "development")) ∧
    ((resendOTP phone rl fu env w o1 now).response.otp.isSome
      = ((resendOTP phone rl fu env w o1 now).response.status == 200
          && env == "development")) ∧
    (env ≠ "development" →
      ((sendOTP body rl fu env w o1 now).response
        = (sendOTP body rl fu env w o2 now).response) ∧
      ((resendOTP phone rl fu env w o1 now).response
        = (resendOTP phone rl fu env w o2 now).response)) := by
  refine ⟨?_, ?_, ?_⟩
  · cases body with
    | none => rfl
    | some pn =>
      simp only [sendOTP]
      repeat' split
      all_goals simp_all
  · simp only [resendOTP]
    repeat' split
    all_goals simp_all
  · intro henv
    constructor
    · cases body with
      | none => rfl
      | some pn =>
        simp only [sendOTP, henv]
        repeat' split
        all_goals simp_all [generateOTP_quota, generateOTP_expiresAt]
    · simp only [resendOTP, henv]
      repeat' split
      all_goals simp_all [generateOTP_quota, generateOTP_expiresAt]

/-- Witness for C8: in production mode, two send and resend runs differing
only in the drawn code (`111111` vs `222222`) produce identical responses. -/
theorem otp_field_development_only_witness :
    ((sendOTP (some ("+12345678")) none
        (some (⟨⟨none, none, 0⟩, ⟨0, 0⟩, true⟩ : UserState))
        "production" ⟨none, none⟩ ("111111") 0).response
      = (sendOTP (some ("+12345678")) none
          (some (⟨⟨none, none, 0⟩, ⟨0, 0⟩, true⟩ : UserState))
          "production" ⟨none, none⟩ ("222222") 0).response) ∧
    ((resendOTP ("+12345678") none
        (some (⟨⟨none, none, 0⟩, ⟨0, 0⟩, true⟩ : UserState))
        "production" ⟨none, none⟩ ("111111") 0).response
      = (resendOTP ("+12345678") none
          (some (⟨⟨none, none, 0⟩, ⟨0, 0⟩, true⟩ : UserState))
          "production" ⟨none, none⟩ ("222222") 0).response) :=
  (otp_field_development_only (some ("+12345678")) ("+12345678") none
    (some (⟨⟨none, none, 0⟩, ⟨0, 0⟩, true⟩ : UserState))
    "production" ⟨none, none⟩ ("111111") ("222222") 0).2.2 (by decide)

/-- Every configured SMS provider fails, and at least one is configured
(exactly the situation in which the source's `sendSMS` throws the aggregated
`Failed to send SMS` error for a valid number). -/
def allProvidersFail (w : SmsWorld) : Bool :=
  (w.messageBird.isSome || w.twilio.isSome)
  && (match w.messageBird with | some none => false | _ => true)
  && (match w.twilio with | some none => false | _ => true)

/-- The aggregated delivery-failure text the source throws when every
configured provider fails. -/
def aggMsg (w : SmsWorld) : String := "Failed to send SMS: " ++ joinComma (smsErrorList w)

theorem sendSMS_all_fail (w : SmsWorld) (env phone : String)
    (hval : phoneAccepted phone = true)
    (hfail : allProvidersFail w = true)
    (hpn : containsSub (aggMsg w) ("phone number") = false) :
    sendSMS w env phone = .error (aggMsg w) := by
  obtain ⟨c, hc⟩ : ∃ c, validatePhoneNumber phone = .ok c := by
    unfold phoneAccepted at hval
    cases hv : validatePhoneNumber phone with
    | ok c => exact ⟨c, rfl⟩
    | error e =>
      rw [hv] at hval
      simp [Except.toOption] at hval
  unfold sendSMS
  rw [hc]
  unfold aggMsg at hpn
  rcases w with ⟨mb, tw⟩
  rcases mb with _ | mb2
  · rcases tw with _ | tw2
    · simp [allProvidersFail] at hfail
    · rcases tw2 with _ | e
      · simp [allProvidersFail] at hfail
      · simp_all [aggMsg]
  · rcases mb2 with _ | e
    · simp [allProvidersFail] at hfail
    · rcases tw with _ | tw2
      · simp_all [aggMsg]
      · rcases tw2 with _ | e2
        · simp [allProvidersFail] at hfail
        · simp_all [aggMsg]

/-- **C3 (amended).** For every send or resend request outside development
mode that reaches delivery (the rate limiter allows it, a matching active
user exists, the daily quota allows it, and — for resend — no unexpired prior
OTP blocks it) with a phone number that passes validation, when SMS delivery
fails on all configured providers and the aggregated provider error text
contains neither `phone number` nor `validation failed` (the handlers' string
matching would otherwise reclassify the send failure as HTTP 400), the
handler reverts the just-generated OTP (`phoneOTP.code` and
`phoneOTP.expiresAt` cleared), decrements `otpRequestCount.count` by 1
relative to the just-persisted generation, persists that user state, and
responds HTTP 500. -/
theorem otp_delivery_failure_rollback (phone : String) (rl : Option RLEntry)
    (u : UserState) (env : String) (w : SmsWorld) (otp : String) (now : Nat)
    (henv : env ≠ "development")
    (hallow : (checkLimit rl now).1.allowed = true)
    (hact : u.isActive = true)
    (hquota : u.canRequestOTP now = true)
    (hnotvalid : otpStillValid u now = false)
    (hval : phoneAccepted phone = true)
    (hfail : allProvidersFail w = true)
    (hpn : containsSub (aggMsg w) ("phone number") = false)
    (hvf : containsSub ("Failed to send OTP: " ++ aggMsg w) ("validation failed") = false) :
    ((sendOTP (some phone) rl (some u) env w otp now).response.status = 500) ∧
    ((sendOTP (some phone) rl (some u) env w otp now).response.success = false) ∧
    ((sendOTP (some phone) rl (some u) env w otp now).user
      = some (revertOTP (u.generateOTP now otp))) ∧
    ((resendOTP phone rl (some u) env w otp now).response.status = 500) ∧
    ((resendOTP phone rl (some u) env w otp now).response.success = false) ∧
    ((resendOTP phone rl (some u) env w otp now).user
      = some (revertOTP (u.generateOTP now otp))) ∧
    ((revertOTP (u.generateOTP now otp)).phoneOTP.code = none) ∧
    ((revertOTP (u.generateOTP now otp)).phoneOTP.expiresAt = none) ∧
    ((revertOTP (u.generateOTP now otp)).otpRequestCount.count
      = (u.generateOTP now otp).otpRequestCount.count - 1) := by
  have hs := sendSMS_all_fail w env phone hval hfail hpn
  refine ⟨?_, ?_, ?_, ?_, ?_, ?_, rfl, rfl, rfl⟩ <;>
    simp [sendOTP, resendOTP, hallow, hact, hquota, hnotvalid, hs, henv, hvf]

/-- Witness for C3's amended theorem: in production with both providers
configured and failing (`boom`, `bam`), send and resend both answer 500 and
persist the reverted user. -/
theorem otp_delivery_failure_rollback_witness :
    ((sendOTP (some ("+12345678")) none
        (some (⟨⟨none, none, 0⟩, ⟨0, 0⟩, true⟩ : UserState)) "production"
        ⟨some (some ("boom")), some (some ("bam"))⟩ ("123456") 0).response.status = 500) ∧
    ((sendOTP (some ("+12345678")) none
        (some (⟨⟨none, none, 0⟩, ⟨0, 0⟩, true⟩ : UserState)) "production"
        ⟨some (some ("boom")), some (some ("bam"))⟩ ("123456") 0).response.success = false) ∧
    ((sendOTP (some ("+12345678")) none
        (some (⟨⟨none, none, 0⟩, ⟨0, 0⟩, true⟩ : UserState)) "production"
        ⟨some (some ("boom")), some (some ("bam"))⟩ ("123456") 0).user
      = some (revertOTP ((⟨⟨none, none, 0⟩, ⟨0, 0⟩, true⟩ : UserState).generateOTP 0 ("123456")))) ∧
    ((resendOTP ("+12345678") none
        (some (⟨⟨none, none, 0⟩, ⟨0, 0⟩, true⟩ : UserState)) "production"
        ⟨some (some ("boom")), some (some ("bam"))⟩ ("123456") 0).response.status = 500) ∧
    ((resendOTP ("+12345678") none
        (some (⟨⟨none, none, 0⟩, ⟨0, 0⟩, true⟩ : UserState)) "production"
        ⟨some (some ("boom")), some (some ("bam"))⟩ ("123456") 0).response.success = false) ∧
    ((resendOTP ("+12345678") none
        (some (⟨⟨none, none, 0⟩, ⟨0, 0⟩, true⟩ : UserState)) "production"
        ⟨some (some ("boom")), some (some ("bam"))⟩ ("123456") 0).user
      = some (revertOTP ((⟨⟨none, none, 0⟩, ⟨0, 0⟩, true⟩ : UserState).generateOTP 0 ("123456")))) ∧
    ((revertOTP ((⟨⟨none, none, 0⟩, ⟨0, 0⟩, true⟩ : UserState).generateOTP 0 ("123456"))).phoneOTP.code = none) ∧
    ((revertOTP ((⟨⟨none, none, 0⟩, ⟨0, 0⟩, true⟩ : UserState).generateOTP 0 ("123456"))).phoneOTP.expiresAt = none) ∧
    ((revertOTP ((⟨⟨none, none, 0⟩, ⟨0, 0⟩, true⟩ : UserState).generateOTP 0 ("123456"))).otpRequestCount.count
      = ((⟨⟨none, none, 0⟩, ⟨0, 0⟩, true⟩ : UserState).generateOTP 0 ("123456")).otpRequestCount.count - 1) :=
  otp_delivery_failure_rollback ("+12345678") none
    (⟨⟨none, none, 0⟩, ⟨0, 0⟩, true⟩ : UserState) "production"
    ⟨some (some ("boom")), some (some ("bam"))⟩ ("123456") 0
    (by decide) (by decide) (by decide) (by decide) (by decide) (by decide) (by decide)
    (by decide) (by decide)

/-- **C3 counterexample.** In production with only MessageBird configured and
failing with the realistic provider error text `invalid phone number`, the
aggregated failure is wrapped by `sendSMS` (its catch wraps any error
mentioning `phone number`) into a message containing `validation failed`,
which `sendOTP`'s catch classifies as a validation error: the response is
HTTP 400, not the 500 the claim states — even though delivery failed on all
configured providers and the rollback still happened. -/
theorem sendOTP_delivery_taxonomy_cex :
    (allProvidersFail ⟨some (some ("invalid phone number")), none⟩ = true) ∧
    ((sendOTP (some ("+12345678")) none
        (some (⟨⟨none, none, 0⟩, ⟨0, 0⟩, true⟩ : UserState)) "production"
        ⟨some (some ("invalid phone number")), none⟩ ("123456") 0).response.status = 400) ∧
    ((sendOTP (some ("+12345678")) none
        (some (⟨⟨none, none, 0⟩, ⟨0, 0⟩, true⟩ : UserState)) "production"
        ⟨some (some ("invalid phone number")), none⟩ ("123456") 0).response.status ≠ 500) ∧
    ((sendOTP (some ("+12345678")) none
        (some (⟨⟨none, none, 0⟩, ⟨0, 0⟩, true⟩ : UserState)) "production"
        ⟨some (some ("invalid phone number")), none⟩ ("123456") 0).user
      = some (revertOTP ((⟨⟨none, none, 0⟩, ⟨0, 0⟩, true⟩ : UserState).generateOTP 0 ("123456")))) := by
  refine ⟨by decide, by decide, by decide, by decide⟩
